import Mathlib

/-!
Shallow embedding of the respiration-monitor firmware core
(`src/Prototype/src/{main,sensor,buzzer,button,ble_comm}.cpp` plus
`include/config.h`).

Modelling conventions:
* `unsigned long` millisecond timestamps are `Nat`; the C subtraction
  `millis() - t0` on the 32-bit target is `sub32`, faithful for inputs
  below `2^32`.
* `float` measurement values are modelled as `ℚ` (the thresholds and all
  comparisons in the source are exact at these values).
* Each C++ manager class becomes a state structure, and each method a pure
  function from the state (plus the inputs the method reads: the current
  time, the GPIO level, the sensor-bus outcome) to the new state.
* Hardware side effects the claims observe (BLE notify, buzzer start/stop
  calls, the non-returning deep-sleep entry) are recorded in an `Effect`
  list; the PWM output register written by `ledcWrite` is kept in the
  buzzer state as `duty`.
* `delay(...)` calls only stall the loop; they have no observable effect in
  this model.
-/

namespace RespMon

/-- 32-bit unsigned subtraction `a - b` as computed on the target for
`unsigned long` (4294967296 = 2^32); faithful whenever `a b < 2^32`. -/
def sub32 (a b : Nat) : Nat := (a + 4294967296 - b) % 4294967296

/-! ### config.h -/

def CO2_THRESHOLD_LOW : ℚ := 1000
def CO2_THRESHOLD_MED : ℚ := 5000
def CO2_THRESHOLD_HIGH : ℚ := 10000
def BUTTON_DEBOUNCE_MS : Nat := 50
def BUTTON_HOLD_TIME_MS : Nat := 2000
def SENSOR_READ_INTERVAL_MS : Nat := 1000
def BLE_TIMEOUT_MS : Nat := 30000

/-- Alert levels (config.h). -/
inductive AlertLevel where
  | ALERT_NONE
  | ALERT_LOW
  | ALERT_MEDIUM
  | ALERT_HIGH
  | ALERT_CRITICAL
  deriving DecidableEq, Repr

/-- Numeric severity of an alert level, as in the C enum (0..4). -/
def AlertLevel.toNat : AlertLevel → Nat
  | .ALERT_NONE => 0
  | .ALERT_LOW => 1
  | .ALERT_MEDIUM => 2
  | .ALERT_HIGH => 3
  | .ALERT_CRITICAL => 4

/-- Sensor data structure (config.h). `float` fields are modelled as `ℚ`. -/
structure SensorData where
  co2_ppm : ℚ
  humidity_percent : ℚ
  temperature_celsius : ℚ
  valid : Bool
  timestamp : Nat
  deriving DecidableEq, Repr

/-- System states (config.h). -/
inductive SystemState where
  | STATE_SLEEPING
  | STATE_WAKING_UP
  | STATE_READING_SENSORS
  | STATE_PROCESSING_ALERTS
  | STATE_BLE_COMMUNICATION
  | STATE_PREPARING_SLEEP
  deriving DecidableEq, Repr

/-- BLE command types (ble_comm.h). -/
inductive BLECommand where
  | CMD_NONE
  | CMD_MUTE_BUZZER
  | CMD_FORCE_SLEEP
  | CMD_REQUEST_DATA
  | CMD_RESET_ALERTS
  deriving DecidableEq, Repr

/-! ### Observable hardware effects -/

/-- Side effects the cooperative loop performs on the outside world.
`bleSend` records a call to `BLEManager::sendSensorData`; its `notified`
flag is whether a peer was connected, i.e. whether the notify actually
went out (the call is a no-op otherwise). `deepSleepEnter` records the
non-returning `enterDeepSleep()` call. -/
inductive Effect where
  | bleSend (notified : Bool) (data : SensorData) (alert : AlertLevel)
  | alarmStart (level : AlertLevel)
  | alarmStop
  | deepSleepEnter
  deriving DecidableEq, Repr

/-! ### sensor.cpp — SensorManager -/

/-- Private state of `SensorManager`. -/
structure SensorState where
  initialized : Bool
  lastReadTime : Nat
  lastReading : SensorData
  deriving DecidableEq, Repr

/-- Outcome of one pass over the sensor bus, covering the three failure
exits of `SensorManager::readSensors` (AHT21 read failure, ENS160 measure
failure, ENS160 data not available) and the success case with the raw
measurements (`eco2` is the `uint16_t` eCO2 register value). -/
inductive BusResult where
  | ahtFail
  | ensMeasureFail
  | ensNotAvailable
  | ok (eco2 : Nat) (humidity : ℚ) (temperature : ℚ)
  deriving DecidableEq, Repr

/-- Whether the bus pass failed before producing a measurement. -/
def BusResult.isFail : BusResult → Bool
  | .ahtFail => true
  | .ensMeasureFail => true
  | .ensNotAvailable => true
  | .ok _ _ _ => false

/-- `SensorManager::readSensors(SensorData&)`. The C++ out-parameter is
modelled by taking the callers current `data` value and returning the value
it holds after the call; the returned triple is
(return value, out-parameter, new manager state). -/
def readSensors (s : SensorState) (data : SensorData) (currentTime : Nat)
    (bus : BusResult) : Bool × SensorData × SensorState :=
  if s.initialized = false then
    (false, { data with valid := false }, s)
  else if sub32 currentTime s.lastReadTime < SENSOR_READ_INTERVAL_MS ∧
      s.lastReading.valid = true then
    (true, s.lastReading, s)
  else
    match bus with
    | .ahtFail => (false, { data with valid := false }, s)
    | .ensMeasureFail => (false, { data with valid := false }, s)
    | .ensNotAvailable => (false, { data with valid := false }, s)
    | .ok eco2 hum temp =>
        let d : SensorData :=
          { co2_ppm := (eco2 : ℚ), humidity_percent := hum,
            temperature_celsius := temp, valid := true,
            timestamp := currentTime }
        (true, d, { s with lastReading := d, lastReadTime := currentTime })

/-- `SensorManager::getAlertLevel(float co2_ppm)` — the threshold
classifier. A pure function of `co2_ppm` alone: it reads and writes no
manager state. -/
def getAlertLevel (co2_ppm : ℚ) : AlertLevel :=
  if co2_ppm ≤ CO2_THRESHOLD_LOW then .ALERT_NONE
  else if co2_ppm ≤ CO2_THRESHOLD_MED then .ALERT_LOW
  else if co2_ppm ≤ CO2_THRESHOLD_HIGH then .ALERT_MEDIUM
  else .ALERT_HIGH

/-! ### buzzer.cpp — BuzzerManager -/

/-- State of `BuzzerManager`, together with the modelled PWM output
registers (`freq` from `ledcSetup`, `duty` from `ledcWrite`). -/
structure BuzzState where
  isMuted : Bool
  currentAlert : AlertLevel
  lastToggleTime : Nat
  currentRepeat : Nat
  freq : Nat
  duty : Nat
  deriving DecidableEq, Repr

/-- State after the constructor and `BuzzerManager::begin()`
(channel set up at 1000 Hz, output off). -/
def buzzerInit : BuzzState :=
  { isMuted := false, currentAlert := .ALERT_NONE, lastToggleTime := 0,
    currentRepeat := 0, freq := 1000, duty := 0 }

/-- The tone frequency `BuzzerManager::startAlert` selects per level
(the four explicit `switch` cases). -/
def freqOf : AlertLevel → Nat
  | .ALERT_LOW => 800
  | .ALERT_MEDIUM => 1200
  | .ALERT_HIGH => 1800
  | .ALERT_CRITICAL => 2500
  | .ALERT_NONE => 0

/-- `BuzzerManager::startAlert(level)` at time `now` (= `millis()`). -/
def startAlert (s : BuzzState) (level : AlertLevel) (now : Nat) : BuzzState :=
  if s.isMuted = true ∨ level = .ALERT_NONE then s
  else
    let s1 := { s with currentAlert := level, currentRepeat := 0,
                       lastToggleTime := now }
    match level with
    | .ALERT_NONE => { s1 with duty := 0 }
    | l => { s1 with freq := freqOf l, duty := 128 }

/-- `BuzzerManager::stopAlert()`. -/
def stopAlert (s : BuzzState) : BuzzState :=
  { s with currentAlert := .ALERT_NONE, currentRepeat := 0, duty := 0 }

/-- `BuzzerManager::mute()`. -/
def mute (s : BuzzState) : BuzzState :=
  { s with isMuted := true, duty := 0 }

/-- `BuzzerManager::unmute()`. -/
def unmute (s : BuzzState) : BuzzState :=
  { s with isMuted := false }

/-- `BuzzerManager::update()` at time `currentTime`. -/
def buzzerUpdate (s : BuzzState) (currentTime : Nat) : BuzzState :=
  if s.currentAlert = .ALERT_NONE ∨ s.isMuted = true then s
  else if 500 ≤ sub32 currentTime s.lastToggleTime then
    let s1 := { s with lastToggleTime := currentTime,
                       currentRepeat := s.currentRepeat + 1 }
    let s2 := if s1.currentRepeat % 2 = 0 then { s1 with duty := 128 }
              else { s1 with duty := 0 }
    if 10 ≤ s2.currentRepeat then stopAlert s2 else s2
  else s

/-- `BuzzerManager::isBuzzerActive()`. -/
def isBuzzerActive (s : BuzzState) : Bool :=
  decide (s.currentAlert ≠ .ALERT_NONE) && !s.isMuted

/-- Iterated `BuzzerManager::update` at the toggle cadence: step `n + 1`
runs `update` at time `t + 500 * (n + 1)`. -/
def buzzRun (s : BuzzState) (t : Nat) : Nat → BuzzState
  | 0 => s
  | n + 1 => buzzerUpdate (buzzRun s t n) (t + 500 * (n + 1))

/-! ### button.cpp — ButtonManager -/

/-- State of `ButtonManager`. GPIO levels are `Bool` with
`true` = HIGH (released, pull-up) and `false` = LOW (pressed). -/
structure ButtonState where
  lastDebounceTime : Nat
  buttonPressTime : Nat
  lastButtonState : Bool
  buttonState : Bool
  wasPressed_flag : Bool
  wasHeld_flag : Bool
  deriving DecidableEq, Repr

/-- State after the `ButtonManager` constructor. -/
def buttonInit : ButtonState :=
  { lastDebounceTime := 0, buttonPressTime := 0, lastButtonState := true,
    buttonState := true, wasPressed_flag := false, wasHeld_flag := false }

/-- `ButtonManager::update()` with the sampled GPIO level `reading` at time
`now` (the several `millis()` calls inside one `update` are modelled as the
single tick time `now`). -/
def buttonUpdate (s : ButtonState) (reading : Bool) (now : Nat) : ButtonState :=
  let s1 := if reading ≠ s.lastButtonState
            then { s with lastDebounceTime := now } else s
  let s2 :=
    if BUTTON_DEBOUNCE_MS < sub32 now s1.lastDebounceTime then
      if reading ≠ s1.buttonState then
        let s1a := { s1 with buttonState := reading }
        if s1a.buttonState = false then
          { s1a with wasPressed_flag := true, buttonPressTime := now }
        else s1a
      else s1
    else s1
  let s3 :=
    if s2.buttonState = false ∧ s2.wasHeld_flag = false then
      if BUTTON_HOLD_TIME_MS ≤ sub32 now s2.buttonPressTime then
        { s2 with wasHeld_flag := true }
      else s2
    else s2
  { s3 with lastButtonState := reading }

/-- `ButtonManager::wasPressed()` — read-and-clear. -/
def wasPressed (s : ButtonState) : Bool × ButtonState :=
  if s.wasPressed_flag = true then (true, { s with wasPressed_flag := false })
  else (false, s)

/-- `ButtonManager::wasHeld()` — read-and-clear. -/
def wasHeld (s : ButtonState) : Bool × ButtonState :=
  if s.wasHeld_flag = true then (true, { s with wasHeld_flag := false })
  else (false, s)

/-! ### ble_comm.cpp — BLEManager -/

/-- State of `BLEManager` (the server/characteristic pointers exist after
`begin()`; `advertising` models whether advertising is running). -/
structure BLEState where
  deviceConnected : Bool
  oldDeviceConnected : Bool
  pendingCommand : BLECommand
  bleStartTime : Nat
  advertising : Bool
  deriving DecidableEq, Repr

/-- `BLEManager::getCommand()` — returns the pending command. Note: the
source returns `pendingCommand` without clearing it; clearing is a separate
`clearCommand()` call. -/
def getCommand (b : BLEState) : BLECommand := b.pendingCommand

/-- `BLEManager::clearCommand()`. -/
def clearCommand (b : BLEState) : BLEState :=
  { b with pendingCommand := .CMD_NONE }

/-- `BLEManager::isConnected()`. -/
def isConnected (b : BLEState) : Bool := b.deviceConnected

/-- `BLEManager::hasTimedOut()` at time `now`:
`(millis() - bleStartTime) > BLE_TIMEOUT_MS`. -/
def hasTimedOut (b : BLEState) (now : Nat) : Bool :=
  decide (BLE_TIMEOUT_MS < sub32 now b.bleStartTime)

/-- `BLEManager::stop()` — stops advertising only. -/
def bleStop (b : BLEState) : BLEState :=
  { b with advertising := false }

/-- `BLEManager::sendSensorData(data, alert)` — the call always happens;
the notify goes out only when a peer is connected (else the method
returns immediately). -/
def sendSensorData (b : BLEState) (d : SensorData) (a : AlertLevel) : Effect :=
  .bleSend b.deviceConnected d a

/-- `BLEManager::handleConnection()` — reconciles `oldDeviceConnected`
with `deviceConnected` and restarts advertising after a disconnect. -/
def handleConnection (b : BLEState) : BLEState :=
  if b.deviceConnected = false ∧ b.oldDeviceConnected = true then
    { b with advertising := true, oldDeviceConnected := false }
  else if b.deviceConnected = true ∧ b.oldDeviceConnected = false then
    { b with oldDeviceConnected := true }
  else b

/-- `ControlCallbacks::onWrite` — decodes the ASCII integer already parsed
by `atoi`; unknown values leave the pending command unchanged. -/
def controlOnWrite (b : BLEState) (value : Int) : BLEState :=
  if value = 1 then { b with pendingCommand := .CMD_MUTE_BUZZER }
  else if value = 2 then { b with pendingCommand := .CMD_FORCE_SLEEP }
  else if value = 3 then { b with pendingCommand := .CMD_REQUEST_DATA }
  else if value = 4 then { b with pendingCommand := .CMD_RESET_ALERTS }
  else b

/-! ### main.cpp — globals, state machine and loop -/

/-- The file-scope globals of main.cpp (minus `systemInitialized`, which is
threaded separately through `loopTick`) together with the four manager
states. -/
structure MainState where
  currentState : SystemState
  currentSensorData : SensorData
  currentAlert : AlertLevel
  stateStartTime : Nat
  lastSensorRead : Nat
  button : ButtonState
  buzzer : BuzzState
  sensor : SensorState
  ble : BLEState
  deriving DecidableEq, Repr

/-- `processAlerts()` (main.cpp): takes the globals it reads
(`currentAlert`, `currentSensorData`) and the buzzer state; returns the new
`currentAlert`, new buzzer state, and the alarm calls performed. -/
def processAlerts (currentAlert : AlertLevel) (data : SensorData)
    (buzzer : BuzzState) (now : Nat) : AlertLevel × BuzzState × List Effect :=
  if data.valid = false then (currentAlert, buzzer, [])
  else
    let newAlert := getAlertLevel data.co2_ppm
    if newAlert ≠ currentAlert ∧ newAlert ≠ .ALERT_NONE then
      (newAlert, startAlert buzzer newAlert now, [.alarmStart newAlert])
    else if newAlert = .ALERT_NONE ∧ currentAlert ≠ .ALERT_NONE then
      (.ALERT_NONE, stopAlert buzzer, [.alarmStop])
    else (currentAlert, buzzer, [])

/-- `handleSystemStates()` (main.cpp) at time `currentTime`, with `bus` the
outcome a genuine sensor-bus pass would produce this tick. In
`STATE_PREPARING_SLEEP` the code stops the alarm and BLE, delays 1000 ms
and calls the non-returning `enterDeepSleep()`; `currentState` is not
changed there. `STATE_SLEEPING` falls into the `default` case. -/
def handleSystemStates (s : MainState) (currentTime : Nat) (bus : BusResult) :
    MainState × List Effect :=
  match s.currentState with
  | .STATE_WAKING_UP =>
      ({ s with currentState := .STATE_READING_SENSORS,
                stateStartTime := currentTime }, [])
  | .STATE_READING_SENSORS =>
      if SENSOR_READ_INTERVAL_MS ≤ sub32 currentTime s.lastSensorRead then
        let r := readSensors s.sensor s.currentSensorData currentTime bus
        if r.1 = true then
          ({ s with currentSensorData := r.2.1, sensor := r.2.2,
                    lastSensorRead := currentTime,
                    currentState := .STATE_PROCESSING_ALERTS,
                    stateStartTime := currentTime }, [])
        else
          ({ s with currentSensorData := r.2.1, sensor := r.2.2 }, [])
      else (s, [])
  | .STATE_PROCESSING_ALERTS =>
      let r := processAlerts s.currentAlert s.currentSensorData s.buzzer
                 currentTime
      ({ s with currentAlert := r.1, buzzer := r.2.1,
                currentState := .STATE_BLE_COMMUNICATION,
                stateStartTime := currentTime }, r.2.2)
  | .STATE_BLE_COMMUNICATION =>
      let sendEffects :=
        if s.ble.deviceConnected = true ∨ hasTimedOut s.ble currentTime = false
        then [sendSensorData s.ble s.currentSensorData s.currentAlert]
        else []
      if hasTimedOut s.ble currentTime = true ∧ s.ble.deviceConnected = false
      then
        ({ s with currentState := .STATE_PREPARING_SLEEP,
                  stateStartTime := currentTime }, sendEffects)
      else
        ({ s with currentState := .STATE_READING_SENSORS,
                  stateStartTime := currentTime }, sendEffects)
  | .STATE_PREPARING_SLEEP =>
      ({ s with buzzer := stopAlert s.buzzer, ble := bleStop s.ble },
       [.alarmStop, .deepSleepEnter])
  | .STATE_SLEEPING =>
      ({ s with currentState := .STATE_WAKING_UP,
                stateStartTime := currentTime }, [])

/-- `handleBLECommands()` (main.cpp): drains one pending BLE command and
applies its side effects, then calls `clearCommand()`. -/
def handleBLECommands (s : MainState) (now : Nat) : MainState × List Effect :=
  let command := getCommand s.ble
  if command = .CMD_NONE then (s, [])
  else
    let r : MainState × List Effect :=
      match command with
      | .CMD_MUTE_BUZZER => ({ s with buzzer := mute s.buzzer }, [])
      | .CMD_FORCE_SLEEP =>
          ({ s with currentState := .STATE_PREPARING_SLEEP,
                    stateStartTime := now }, [])
      | .CMD_REQUEST_DATA =>
          (s, [sendSensorData s.ble s.currentSensorData s.currentAlert])
      | .CMD_RESET_ALERTS =>
          ({ s with buzzer := unmute (stopAlert s.buzzer),
                    currentAlert := .ALERT_NONE }, [.alarmStop])
      | .CMD_NONE => (s, [])
    ({ r.1 with ble := clearCommand r.1.ble }, r.2)

/-- Lines 57-63 of `loop()` (main.cpp): a drained `Pressed` event stops the
buzzer if and only if the buzzer is currently active. -/
def loopHandleButtonPress (pressed : Bool) (buzz : BuzzState) :
    BuzzState × List Effect :=
  if pressed = true then
    if isBuzzerActive buzz = true then (stopAlert buzz, [.alarmStop])
    else (buzz, [])
  else (buzz, [])

/-- `loop()` (main.cpp): one cooperative tick, given the `systemInitialized`
flag, the sampled button GPIO level, the tick time and the sensor-bus
outcome for this tick. -/
def loopTick (systemInitialized : Bool) (s : MainState) (reading : Bool)
    (now : Nat) (bus : BusResult) : MainState × List Effect :=
  if systemInitialized = false then (s, [])
  else
    let btn0 := buttonUpdate s.button reading now
    let buzz0 := buzzerUpdate s.buzzer now
    let ble0 := handleConnection s.ble
    let pr := wasPressed btn0
    let bp := loopHandleButtonPress pr.1 buzz0
    let hd := wasHeld pr.2
    let s1 := { s with button := hd.2, buzzer := bp.1, ble := ble0 }
    let s2 := if hd.1 = true ∧ s1.currentState ≠ .STATE_SLEEPING then
                { s1 with currentState := .STATE_PREPARING_SLEEP,
                          stateStartTime := now }
              else s1
    let c := handleBLECommands s2 now
    let m := handleSystemStates c.1 now bus
    (m.1, bp.2 ++ c.2 ++ m.2)

/-! ### main.cpp — setup / setupSystem -/

/-- The success/failure each subsystem `begin()` would report during
`setupSystem()`. In the shipped sources only the sensor `begin()` can
actually fail; the others unconditionally return true. -/
structure InitResults where
  buttonOk : Bool
  buzzerOk : Bool
  sensorOk : Bool
  bleOk : Bool
  deriving DecidableEq, Repr

/-- What bring-up left behind after `setup()` returns. -/
structure SetupResult where
  buttonInitialized : Bool
  buzzerInitialized : Bool
  sensorInitialized : Bool
  bleStarted : Bool
  wakeupConfigured : Bool
  systemInitialized : Bool
  currentState : SystemState
  deriving DecidableEq, Repr

/-- `setup()` (main.cpp), inlining `setupSystem()`. `setupSystem` returns
early at the first failed `begin()`, skipping the later subsystems, but
`setup()` then continues unconditionally: both wake-reason branches set
`currentState = STATE_WAKING_UP`, and `systemInitialized` is set to true in
every case. -/
def setup (r : InitResults) : SetupResult :=
  let buttonInitialized := r.buttonOk
  let buzzerInitialized := buttonInitialized && r.buzzerOk
  let sensorInitialized := buzzerInitialized && r.sensorOk
  let bleStarted := sensorInitialized && r.bleOk
  let wakeupConfigured := bleStarted
  { buttonInitialized := buttonInitialized,
    buzzerInitialized := buzzerInitialized,
    sensorInitialized := sensorInitialized,
    bleStarted := bleStarted,
    wakeupConfigured := wakeupConfigured,
    systemInitialized := true,
    currentState := .STATE_WAKING_UP }

/-! ### Concrete states used by the closed theorems -/

/-- A zero-initialised `SensorData`, as the file-scope global in main.cpp. -/
def dataZero : SensorData :=
  { co2_ppm := 0, humidity_percent := 0, temperature_celsius := 0,
    valid := false, timestamp := 0 }

/-- A cached valid reading used to exercise the sensor cache. -/
def dataCached : SensorData :=
  { co2_ppm := 700, humidity_percent := 40, temperature_celsius := 25,
    valid := true, timestamp := 100 }

/-- A valid reading with the given CO2 value (for the alert scenario). -/
def co2Data (c : ℚ) : SensorData :=
  { co2_ppm := c, humidity_percent := 40, temperature_celsius := 25,
    valid := true, timestamp := 0 }

/-- A BLE state that opened at t = 0, never connected, no pending command. -/
def bleNeverConnected : BLEState :=
  { deviceConnected := false, oldDeviceConnected := false,
    pendingCommand := .CMD_NONE, bleStartTime := 0, advertising := true }

/-- A BLE state with a decoded command still pending. -/
def blePendingMute : BLEState :=
  { bleNeverConnected with pendingCommand := .CMD_MUTE_BUZZER }

/-- A controller state sitting in `STATE_BLE_COMMUNICATION`, peer never
connected. -/
def mainCommState : MainState :=
  { currentState := .STATE_BLE_COMMUNICATION, currentSensorData := dataCached,
    currentAlert := .ALERT_NONE, stateStartTime := 0, lastSensorRead := 0,
    button := buttonInit, buzzer := buzzerInit,
    sensor := { initialized := true, lastReadTime := 100,
                lastReading := dataCached },
    ble := bleNeverConnected }

/-- A button state in which the physical button is still pressed
(`buttonState = false` is the LOW, pressed level). -/
def buttonDown : ButtonState :=
  { buttonInit with buttonState := false, lastButtonState := false }

/-- A controller state in `STATE_PREPARING_SLEEP` while the physical button
is still pressed. -/
def mainSleepButtonDown : MainState :=
  { mainCommState with
    currentState := .STATE_PREPARING_SLEEP,
    button := buttonDown }

/-- Main state right after a `setup()` in which the sensor failed to
initialize: state machine armed in `STATE_WAKING_UP`, sensor manager left
uninitialized, BLE never started. -/
def mainAfterFailedSetup : MainState :=
  { currentState := .STATE_WAKING_UP, currentSensorData := dataZero,
    currentAlert := .ALERT_NONE, stateStartTime := 0, lastSensorRead := 0,
    button := buttonInit, buzzer := buzzerInit,
    sensor := { initialized := false, lastReadTime := 0,
                lastReading := dataZero },
    ble := { deviceConnected := false, oldDeviceConnected := false,
             pendingCommand := .CMD_NONE, bleStartTime := 0,
             advertising := false } }

/-- Button trace: press (LOW) at t = 100, edge accepted at t = 200, held
through t = 2400 with the level LOW the whole time (never released). -/
def btnT1 : ButtonState := buttonUpdate buttonInit false 100

/-- Second tick of the held-button trace (press edge accepted). -/
def btnT2 : ButtonState := buttonUpdate btnT1 false 200

/-- After the `Pressed` event is drained. -/
def btnT2d : ButtonState := (wasPressed btnT2).2

/-- Third tick: the hold window (2000 ms) has elapsed, `Held` is raised. -/
def btnT3 : ButtonState := buttonUpdate btnT2d false 2300

/-- First `Held` drain. -/
def btnHeld1 : Bool × ButtonState := wasHeld btnT3

/-- Fourth tick, button still LOW: `update` raises `Held` again. -/
def btnT4 : ButtonState := buttonUpdate btnHeld1.2 false 2400

/-- Second `Held` drain within the same continuous press. -/
def btnHeld2 : Bool × ButtonState := wasHeld btnT4

/-- A sensor manager holding a cached valid reading taken at t = 100. -/
def sensorCachedState : SensorState :=
  { initialized := true, lastReadTime := 100, lastReading := dataCached }

/-- One tick of the rising-CO2 scenario: run `processAlerts` on a fresh
valid reading with CO2 value `c`, accumulating the alarm calls. -/
def alertStep (acc : AlertLevel × BuzzState × List Effect) (c : ℚ) :
    AlertLevel × BuzzState × List Effect :=
  let r := processAlerts acc.1 (co2Data c) acc.2.1 0
  (r.1, r.2.1, acc.2.2 ++ r.2.2)

/-- The rising-CO2 scenario starting from no alert and an idle buzzer. -/
def alertScenario (cs : List ℚ) : AlertLevel × BuzzState × List Effect :=
  cs.foldl alertStep (.ALERT_NONE, buzzerInit, [])

/-- Bring-up outcome in which only the sensor `begin()` fails. -/
def initSensorFail : InitResults :=
  { buttonOk := true, buzzerOk := true, sensorOk := false, bleOk := true }

/-- A buzzer mid-pattern (started unmuted at level Low at t = 0). -/
def buzzLowActive : BuzzState := startAlert buzzerInit .ALERT_LOW 0

/-! ## Helper lemmas -/

/-- On inputs below `2^32`, the modelled 32-bit subtraction agrees with
ordinary truncated subtraction when no wrap occurs. -/
theorem sub32_eq_sub (a b : Nat) (h1 : b ≤ a) (h2 : a < 4294967296) :
    sub32 a b = a - b := by
  unfold sub32
  omega

/-- Unfolding step for `buzzRun`. -/
theorem buzzRun_succ (s : BuzzState) (t n : Nat) :
    buzzRun s t (n + 1) = buzzerUpdate (buzzRun s t n) (t + 500 * (n + 1)) :=
  rfl

/-! ## Claim C6 -/

/-- Claim C6: for every CO2 value `v`, `getAlertLevel` realises the fixed
inclusive-upper-bound bands (v ≤ 1000 → None, 1000 < v ≤ 5000 → Low,
5000 < v ≤ 10000 → Medium, v > 10000 → High), is monotonically
non-decreasing in `v`, and never returns Critical. Purity holds by
construction: `getAlertLevel` is a function of `co2_ppm` alone and touches
no manager state. -/
theorem C6_classify_bands_monotone :
    (∀ v : ℚ,
      (v ≤ 1000 → getAlertLevel v = .ALERT_NONE) ∧
      (1000 < v → v ≤ 5000 → getAlertLevel v = .ALERT_LOW) ∧
      (5000 < v → v ≤ 10000 → getAlertLevel v = .ALERT_MEDIUM) ∧
      (10000 < v → getAlertLevel v = .ALERT_HIGH)) ∧
    (∀ v w : ℚ, v ≤ w →
      (getAlertLevel v).toNat ≤ (getAlertLevel w).toNat) ∧
    (∀ v : ℚ, getAlertLevel v ≠ .ALERT_CRITICAL) := by
  refine ⟨fun v => ⟨fun h => ?_, fun h1 h2 => ?_, fun h1 h2 => ?_,
      fun h => ?_⟩, fun v w hvw => ?_, fun v => ?_⟩ <;>
    simp only [getAlertLevel, CO2_THRESHOLD_LOW, CO2_THRESHOLD_MED,
      CO2_THRESHOLD_HIGH] <;>
    split_ifs <;>
    first
      | decide
      | (exfalso; linarith)

/-- Witness for C6 at concrete inputs. -/
theorem C6_witness :
    getAlertLevel 800 = .ALERT_NONE ∧
    (getAlertLevel 800).toNat ≤ (getAlertLevel 1500).toNat ∧
    getAlertLevel 20000 ≠ .ALERT_CRITICAL :=
  ⟨(C6_classify_bands_monotone.1 800).1 (by norm_num),
   C6_classify_bands_monotone.2.1 800 1500 (by norm_num),
   C6_classify_bands_monotone.2.2 20000⟩

/-! ## Claim C7 -/

/-- Claim C7: with an initialized sensor manager, a `readSensors` call
within the minimum sample interval (1000 ms) of the last valid sample
returns the cached reading bit-identically with no dependence on the bus,
and a call after the interval whose bus pass fails returns the callers
buffer with `valid := false` while leaving the manager state — cached
reading and its timestamp — unchanged. -/
theorem C7_sensor_cache_and_failure (s : SensorState) (data : SensorData)
    (now : Nat) (bus : BusResult) (hinit : s.initialized = true) :
    (sub32 now s.lastReadTime < SENSOR_READ_INTERVAL_MS →
      s.lastReading.valid = true →
      readSensors s data now bus = (true, s.lastReading, s)) ∧
    (SENSOR_READ_INTERVAL_MS ≤ sub32 now s.lastReadTime →
      bus.isFail = true →
      readSensors s data now bus = (false, { data with valid := false }, s)) := by
  constructor
  · intro h1 h2
    simp [readSensors, hinit, h1, h2]
  · intro h1 h2
    cases bus with
    | ahtFail => simp [readSensors, hinit, Nat.not_lt.mpr h1]
    | ensMeasureFail => simp [readSensors, hinit, Nat.not_lt.mpr h1]
    | ensNotAvailable => simp [readSensors, hinit, Nat.not_lt.mpr h1]
    | ok a b c => simp [BusResult.isFail] at h2

/-- Witness for C7: cache hit at t = 600 (500 ms after the sample), and an
unchanged cache after a failing bus pass at t = 2000. -/
theorem C7_witness :
    readSensors sensorCachedState dataZero 600 .ahtFail =
      (true, sensorCachedState.lastReading, sensorCachedState) ∧
    readSensors sensorCachedState dataZero 2000 .ahtFail =
      (false, { dataZero with valid := false }, sensorCachedState) :=
  ⟨(C7_sensor_cache_and_failure sensorCachedState dataZero 600 .ahtFail
      rfl).1 (by decide) rfl,
   (C7_sensor_cache_and_failure sensorCachedState dataZero 2000 .ahtFail
      rfl).2 (by decide) rfl⟩

/-! ## Claim C8 -/

/-- Closed form of the first nine cadence steps after an unmuted
`startAlert` with a non-None level: step `i` has toggled `i` times, the
pattern is still running, and the output follows the parity of the toggle
counter. -/
theorem buzzRun_startAlert (s : BuzzState) (level : AlertLevel) (t : Nat)
    (hm : s.isMuted = false) (hl : level ≠ .ALERT_NONE)
    (ht : t + 5000 < 4294967296) :
    ∀ i, i ≤ 9 →
      buzzRun (startAlert s level t) t i =
        { isMuted := false, currentAlert := level,
          lastToggleTime := t + 500 * i, currentRepeat := i,
          freq := freqOf level, duty := if i % 2 = 0 then 128 else 0 } := by
  have hstart : startAlert s level t =
      { isMuted := false, currentAlert := level, lastToggleTime := t,
        currentRepeat := 0, freq := freqOf level, duty := 128 } := by
    cases level with
    | ALERT_NONE => exact absurd rfl hl
    | ALERT_LOW => simp [startAlert, hm, freqOf]
    | ALERT_MEDIUM => simp [startAlert, hm, freqOf]
    | ALERT_HIGH => simp [startAlert, hm, freqOf]
    | ALERT_CRITICAL => simp [startAlert, hm, freqOf]
  intro i
  induction i with
  | zero =>
      intro _
      simpa [buzzRun] using hstart
  | succ n ih =>
      intro hn
      have hE := ih (by omega)
      have hs : sub32 (t + 500 * (n + 1)) (t + 500 * n) = 500 := by
        rw [sub32_eq_sub _ _ (by omega) (by omega)]
        omega
      have h10 : ¬ (10 ≤ n + 1) := by omega
      rw [buzzRun_succ, hE]
      by_cases hpar : (n + 1) % 2 = 0 <;>
        simp [buzzerUpdate, hl, hs, h10, hpar]

/-- Claim C8: a pattern begun by `startAlert(level)` with `level ≠ None`
while unmuted, driven by `update` at the fixed 500 ms cadence, stays active
through the first nine toggles and auto-stops on the tenth: after toggle 10
the alert is cleared, the output is off and `isBuzzerActive` is false —
with `stop()` never called externally. -/
theorem C8_buzzer_pattern_auto_stop (s : BuzzState) (level : AlertLevel)
    (t : Nat) (hm : s.isMuted = false) (hl : level ≠ .ALERT_NONE)
    (ht : t + 5000 < 4294967296) :
    (∀ i, i ≤ 9 →
      isBuzzerActive (buzzRun (startAlert s level t) t i) = true ∧
      (buzzRun (startAlert s level t) t i).currentRepeat = i) ∧
    buzzRun (startAlert s level t) t 10 =
      { isMuted := false, currentAlert := .ALERT_NONE,
        lastToggleTime := t + 5000, currentRepeat := 0,
        freq := freqOf level, duty := 0 } ∧
    isBuzzerActive (buzzRun (startAlert s level t) t 10) = false := by
  have hrun := buzzRun_startAlert s level t hm hl ht
  have h9 := hrun 9 (by omega)
  have hs : sub32 (t + 500 * 10) (t + 500 * 9) = 500 := by
    rw [sub32_eq_sub _ _ (by omega) (by omega)]
    omega
  have h10 : buzzRun (startAlert s level t) t 10 =
      buzzerUpdate (buzzRun (startAlert s level t) t 9) (t + 500 * 10) :=
    buzzRun_succ _ _ 9
  have hfinal : buzzRun (startAlert s level t) t 10 =
      { isMuted := false, currentAlert := .ALERT_NONE,
        lastToggleTime := t + 5000, currentRepeat := 0,
        freq := freqOf level, duty := 0 } := by
    rw [h10, h9]
    simp [buzzerUpdate, hl, hs, stopAlert]
  refine ⟨fun i hi => ?_, hfinal, ?_⟩
  · rw [hrun i hi]
    simp [isBuzzerActive, hl]
  · rw [hfinal]
    simp [isBuzzerActive]

/-- Witness for C8: level Low started at t = 0, stopped after the tenth
toggle. -/
theorem C8_witness :
    isBuzzerActive (buzzRun (startAlert buzzerInit .ALERT_LOW 0) 0 10) =
      false :=
  (C8_buzzer_pattern_auto_stop buzzerInit .ALERT_LOW 0 rfl (by decide)
    (by norm_num)).2.2

/-! ## Claim C2 -/

/-- Claim C2 is false on the code: in the trace `btnT1 .. btnT4` the button
goes LOW at t = 100 and is never released (every `update` samples LOW), yet
`wasHeld()` reports a `Held` event both at t = 2300 and again at t = 2400.
`ButtonManager::update` re-raises `wasHeld_flag` whenever the button is
still LOW, the flag has been consumed, and the hold window has elapsed
since the last accepted press — the claim says a second `Held` requires a
release and a new press. -/
theorem C2_counterexample :
    btnHeld1.1 = true ∧ btnHeld2.1 = true ∧ btnT4.buttonState = false := by
  decide

/-- Claim C2 amended: a pending `Held` event is never duplicated or lost by
`update`; but once consumed via `wasHeld()`, a continuing press (button
still LOW) past the hold window re-raises `Held` on the next `update`
without any release — re-arming happens on consumption, not on release, so
`Held` can fire more than once per continuous press. -/
theorem C2_amended_held_rearm_on_consume (s : ButtonState) (now : Nat) :
    (s.wasHeld_flag = true → ∀ reading,
      (buttonUpdate s reading now).wasHeld_flag = true) ∧
    (s.buttonState = false → s.wasHeld_flag = false →
      BUTTON_HOLD_TIME_MS ≤ sub32 now s.buttonPressTime →
      (buttonUpdate s false now).wasHeld_flag = true) := by
  constructor
  · intro h reading
    simp only [buttonUpdate]
    split_ifs <;> simp_all
  · intro hb hf hw
    simp only [buttonUpdate]
    split_ifs <;> simp_all

/-- Witness for C2 (amended): after the first `Held` was consumed at
t = 2300, the still-pressed button re-raises the flag at t = 2400. -/
theorem C2_witness :
    (buttonUpdate btnHeld1.2 false 2400).wasHeld_flag = true :=
  (C2_amended_held_rearm_on_consume btnHeld1.2 2400).2 (by decide)
    (by decide) (by decide)

/-! ## Claim C1 -/

/-- Claim C1 is false on the code: with the peer never connected and the
discovery timeout elapsed (`now = 40000 > 30000` after `open` at t = 0),
`handleSystemStates` in `STATE_BLE_COMMUNICATION` moves to
`STATE_PREPARING_SLEEP`, not back to `STATE_READING_SENSORS`. -/
theorem C1_counterexample :
    (handleSystemStates mainCommState 40000 .ahtFail).1.currentState =
      .STATE_PREPARING_SLEEP ∧
    (handleSystemStates mainCommState 40000 .ahtFail).1.currentState ≠
      .STATE_READING_SENSORS := by
  decide

/-- Claim C1 amended: in `STATE_BLE_COMMUNICATION` the controller calls
`sendSensorData` exactly when connected or not yet timed out, then moves to
`STATE_PREPARING_SLEEP` when timed out and not connected, and back to
`STATE_READING_SENSORS` in every other case. -/
theorem C1_amended_comm_transition (s : MainState) (now : Nat)
    (bus : BusResult) (h : s.currentState = .STATE_BLE_COMMUNICATION) :
    (handleSystemStates s now bus).1.currentState =
      (if hasTimedOut s.ble now = true ∧ s.ble.deviceConnected = false
       then .STATE_PREPARING_SLEEP else .STATE_READING_SENSORS) ∧
    (handleSystemStates s now bus).2 =
      (if s.ble.deviceConnected = true ∨ hasTimedOut s.ble now = false
       then [sendSensorData s.ble s.currentSensorData s.currentAlert]
       else []) := by
  simp only [handleSystemStates, h]
  split_ifs <;> simp

/-- Witness for C1 (amended) at t = 1000, inside the discovery window:
the controller sends (no-op, peer absent) and resumes monitoring. -/
theorem C1_witness :
    (handleSystemStates mainCommState 1000 .ahtFail).1.currentState =
      (if hasTimedOut mainCommState.ble 1000 = true ∧
          mainCommState.ble.deviceConnected = false
       then .STATE_PREPARING_SLEEP else .STATE_READING_SENSORS) ∧
    (handleSystemStates mainCommState 1000 .ahtFail).2 =
      (if mainCommState.ble.deviceConnected = true ∨
          hasTimedOut mainCommState.ble 1000 = false
       then [sendSensorData mainCommState.ble mainCommState.currentSensorData
              mainCommState.currentAlert]
       else []) :=
  C1_amended_comm_transition mainCommState 1000 .ahtFail rfl

/-! ## Claim C5 -/

/-- Claim C5 is false on the code: in `mainSleepButtonDown` the physical
button is still pressed (`buttonState = false`, the LOW level), yet
`handleSystemStates` in `STATE_PREPARING_SLEEP` performs the non-returning
deep-sleep entry on that very tick — nothing in the code waits for a
release. -/
theorem C5_counterexample :
    mainSleepButtonDown.button.buttonState = false ∧
    Effect.deepSleepEnter ∈
      (handleSystemStates mainSleepButtonDown 0 .ahtFail).2 := by
  decide

/-- Claim C5 amended: in `STATE_PREPARING_SLEEP` the controller stops the
alarm, stops BLE advertising, delays a fixed 1000 ms, and then enters deep
sleep unconditionally — it never consults the button, so the device can
power down while the button is still pressed. -/
theorem C5_amended_sleep_unconditional (s : MainState) (now : Nat)
    (bus : BusResult) (h : s.currentState = .STATE_PREPARING_SLEEP) :
    handleSystemStates s now bus =
      ({ s with buzzer := stopAlert s.buzzer, ble := bleStop s.ble },
       [.alarmStop, .deepSleepEnter]) := by
  simp only [handleSystemStates, h]

/-- Witness for C5 (amended), with the button still pressed. -/
theorem C5_witness :
    handleSystemStates mainSleepButtonDown 0 .ahtFail =
      ({ mainSleepButtonDown with
          buzzer := stopAlert mainSleepButtonDown.buzzer,
          ble := bleStop mainSleepButtonDown.ble },
       [.alarmStop, .deepSleepEnter]) :=
  C5_amended_sleep_unconditional mainSleepButtonDown 0 .ahtFail rfl

/-! ## Claim C4 -/

/-- Claim C4 is false on the code: `BLEManager::getCommand` returns the
pending command without clearing it — it does not mutate the manager at
all — so a second call with no new incoming payload returns the same
command again, not `CMD_NONE`. -/
theorem C4_counterexample :
    (getCommand blePendingMute, getCommand blePendingMute) =
      (.CMD_MUTE_BUZZER, .CMD_MUTE_BUZZER) ∧
    getCommand blePendingMute ≠ .CMD_NONE := by
  decide

/-- Claim C4 amended: `getCommand` merely reads `pendingCommand`; the clear
is the separate `clearCommand()` that `handleBLECommands` performs after
executing the command. At the controller level each command is still
consumed exactly once: after one `handleBLECommands` pass the pending
command is `CMD_NONE`, and a second pass with no new incoming payload
changes nothing and performs no effect. -/
theorem C4_amended_consume_at_controller (s : MainState) (now now2 : Nat) :
    getCommand s.ble = s.ble.pendingCommand ∧
    (handleBLECommands s now).1.ble.pendingCommand = .CMD_NONE ∧
    handleBLECommands (handleBLECommands s now).1 now2 =
      ((handleBLECommands s now).1, []) := by
  refine ⟨rfl, ?_, ?_⟩ <;>
  · cases hc : s.ble.pendingCommand <;>
      simp [handleBLECommands, getCommand, clearCommand, hc]

/-! ## Claim C3 -/

/-- Claim C3 is false on the code, which contradicts its own guard: when
the sensor manager fails to initialize, `setupSystem()` aborts early, but
`setup()` still sets `systemInitialized = true` and arms the state machine
in `STATE_WAKING_UP`; the very first `loop()` tick then runs
`handleSystemStates`, advancing to `STATE_READING_SENSORS` — the device
does proceed into the monitoring loop. The `if (!systemInitialized) return`
guard in `loop()` exists precisely to hold the device in a non-progressing
idle state, but no path ever leaves the flag false. -/
theorem C3_init_failure_still_runs :
    (setup initSensorFail).sensorInitialized = false ∧
    (setup initSensorFail).systemInitialized = true ∧
    (loopTick (setup initSensorFail).systemInitialized mainAfterFailedSetup
        true 0 .ahtFail).1.currentState = .STATE_READING_SENSORS := by
  decide

/-! ## Claim C9 -/

/-- Claim C9: on a valid reading, `processAlerts` performs no alarm call
when the classified level equals the current one; performs exactly one
`startAlert` call (and records the new level) on any change to a non-None
level, higher or lower; and performs exactly one `stopAlert` call on a
change to None. Concretely, the CO2 sequence 800 → 1500 → 6000 → 11000
yields alert levels None → Low → Medium → High with exactly one start per
transition and no other alarm calls. -/
theorem C9_alert_transition_starts (cur : AlertLevel) (d : SensorData)
    (buzz : BuzzState) (now : Nat) (hv : d.valid = true) :
    (getAlertLevel d.co2_ppm = cur →
      processAlerts cur d buzz now = (cur, buzz, [])) ∧
    (getAlertLevel d.co2_ppm ≠ cur → getAlertLevel d.co2_ppm ≠ .ALERT_NONE →
      processAlerts cur d buzz now =
        (getAlertLevel d.co2_ppm,
         startAlert buzz (getAlertLevel d.co2_ppm) now,
         [.alarmStart (getAlertLevel d.co2_ppm)])) ∧
    (getAlertLevel d.co2_ppm = .ALERT_NONE → cur ≠ .ALERT_NONE →
      processAlerts cur d buzz now =
        (.ALERT_NONE, stopAlert buzz, [.alarmStop])) ∧
    ((alertScenario [800]).1 = .ALERT_NONE ∧
     (alertScenario [800, 1500]).1 = .ALERT_LOW ∧
     (alertScenario [800, 1500, 6000]).1 = .ALERT_MEDIUM ∧
     (alertScenario [800, 1500, 6000, 11000]).1 = .ALERT_HIGH ∧
     (alertScenario [800, 1500, 6000, 11000]).2.2 =
       [.alarmStart .ALERT_LOW, .alarmStart .ALERT_MEDIUM,
        .alarmStart .ALERT_HIGH]) := by
  refine ⟨fun h => ?_, fun h1 h2 => ?_, fun h1 h2 => ?_, by decide⟩
  · simp [processAlerts, hv, h]
  · simp [processAlerts, hv, h1, h2]
  · simp [processAlerts, hv, h1, h2]

/-- Witness for C9: from no alert, a valid CO2 = 1500 reading triggers
exactly one start at level Low. -/
theorem C9_witness :
    processAlerts .ALERT_NONE (co2Data 1500) buzzerInit 0 =
      (getAlertLevel (co2Data 1500).co2_ppm,
       startAlert buzzerInit (getAlertLevel (co2Data 1500).co2_ppm) 0,
       [.alarmStart (getAlertLevel (co2Data 1500).co2_ppm)]) :=
  (C9_alert_transition_starts .ALERT_NONE (co2Data 1500) buzzerInit 0
    rfl).2.1 (by decide) (by decide)

/-! ## Claim C10 -/

/-- Claim C10 (implicit behaviour): on a tick where a pending `Pressed`
event is drained (`wasPressed` returns true and clears the flag) while the
buzzer is active (pattern sounding, not muted), the loop immediately stops
the alarm pattern (alert cleared, output off); a `Pressed` event while the
buzzer is inactive leaves the alarm state untouched and performs no alarm
call. -/
theorem C10_pressed_silences_active_buzzer (btn : ButtonState)
    (buzz : BuzzState) (hp : btn.wasPressed_flag = true) :
    (wasPressed btn).1 = true ∧
    (wasPressed btn).2.wasPressed_flag = false ∧
    (isBuzzerActive buzz = true →
      loopHandleButtonPress (wasPressed btn).1 buzz =
        (stopAlert buzz, [.alarmStop]) ∧
      (stopAlert buzz).currentAlert = .ALERT_NONE ∧
      (stopAlert buzz).duty = 0 ∧
      isBuzzerActive (stopAlert buzz) = false) ∧
    (isBuzzerActive buzz = false →
      loopHandleButtonPress (wasPressed btn).1 buzz = (buzz, [])) := by
  refine ⟨?_, ?_, fun ha => ⟨?_, rfl, rfl, ?_⟩, fun ha => ?_⟩
  · simp [wasPressed, hp]
  · simp [wasPressed, hp]
  · simp [wasPressed, hp, loopHandleButtonPress, ha]
  · simp [isBuzzerActive, stopAlert]
  · simp [wasPressed, hp, loopHandleButtonPress, ha]

/-- Witness for C10: the drained press in the button trace stops a buzzer
mid-Low-pattern. -/
theorem C10_witness :
    loopHandleButtonPress (wasPressed btnT2).1 buzzLowActive =
      (stopAlert buzzLowActive, [.alarmStop]) :=
  ((C10_pressed_silences_active_buzzer btnT2 buzzLowActive
      (by decide)).2.2.1 (by decide)).1

end RespMon
